import Mathlib

/-!
Shallow embedding of the notification targeting and
delivery engine (server file, `server.js`-style Express + sqlite3 code).

Each definition mirrors one JavaScript function or route handler of the
source.  Route handlers only execute parameterized SQL statements against an
in-process sqlite database; they are embedded as pure functions over an
explicit database state (`DB`), with node-style callback errors and promise
rejections rendered as `Except`/result enumerations.  JavaScript numbers that
reach the engine are condominium and row identifiers, embedded as `Int`/`Nat`;
the `Number(x)`-coercion-may-yield-`NaN` behaviour is embedded by `JsNum`.
-/

namespace DomusGest

/-- Result of applying JavaScript `Number(x)` to one element of a loosely
typed payload: either an integer or `NaN` (which the normalizer drops). -/
inductive JsNum where
  | num (n : Int)
  | nan
  deriving DecidableEq, Repr

/-- JavaScript number coercion as used in the normalizer step
`arr.map(x => Number(x)).filter(n => !Number.isNaN(n))`. -/
def JsNum.toInt? : JsNum → Option Int
  | .num n => some n
  | .nan => none

/-- The raw `allowed_condominiums` value handed to
`normalizeAllowedCondominiums(raw)` after its string/array dispatch:
`falsy` covers a falsy value such as null, undefined or the empty string
(the `if (!raw) return []` branch);
`parsedList xs` covers an array (given directly or obtained by `JSON.parse`);
`scalar x` covers a non-array value that the function wraps into `[x]`
(including a string `JSON.parse` failed on). -/
inductive RawPerm where
  | falsy
  | parsedList (xs : List JsNum)
  | scalar (x : JsNum)
  deriving DecidableEq, Repr

/-- Function `normalizeAllowedCondominiums` (source lines 31-44): deserializes, wraps a
bare scalar, coerces every element with `Number`, and drops `NaN`s; any falsy
input or parse failure yields the empty list. -/
def normalizeAllowedCondominiums : RawPerm → List Int
  | .falsy => []
  | .parsedList xs => xs.filterMap JsNum.toInt?
  | .scalar x => [x].filterMap JsNum.toInt?

/-- The `admin-permissions` request header as seen by `getAdminAllowedCondos`:
absent, unparseable (`JSON.parse` throws), or parsed with a `scope` field that
is `"full"`, `"limited"` (carrying the raw allow-list value), or anything
else. -/
inductive PermHeader where
  | absent
  | malformed
  | scopeFull
  | scopeLimited (allowed : RawPerm)
  | scopeOther
  deriving DecidableEq, Repr

/-- Function `getAdminAllowedCondos(req)` (source lines 47-64).  `none` models the
JavaScript `null` ("full access"); `some list` models a restriction to
`list`.  A missing header and a `scope: "full"` descriptor give `null`; a
parse error, an unknown scope, or a limited scope give the (possibly empty)
normalized allow-list.  A falsy `allowed_condominiums` field on a limited
descriptor fails the truthiness guard and yields `[]`, which coincides with
`normalizeAllowedCondominiums` on a falsy value. -/
def getAdminAllowedCondos : PermHeader → Option (List Int)
  | .absent => none
  | .malformed => some []
  | .scopeFull => none
  | .scopeLimited raw => some (normalizeAllowedCondominiums raw)
  | .scopeOther => some []

/-- A row of the `admins` table as selected by the linking helpers
(`SELECT id, username, scope, allowed_condominiums FROM admins`). -/
structure Admin where
  id : Nat
  username : String
  scope : String
  allowed_condominiums : RawPerm
  deriving DecidableEq, Repr

/-- The per-admin eligibility test of
`linkNotificationToAdminsByCondominiums` (source lines 878-897): full-scope
admins always match; limited admins match when their normalized allow-list is
non-empty and intersects the normalized condominium list; other scopes never
match. -/
def condoAdminMatch (condos : List Int) (a : Admin) : Bool :=
  if a.scope == "full" then true
  else if a.scope == "limited" then
    let allowed := normalizeAllowedCondominiums a.allowed_condominiums
    if allowed.isEmpty then false
    else condos.any (fun c => allowed.contains c)
  else false

/-- The step `condominiumIds.map(Number).filter(not NaN)` as performed by
`linkNotificationToAdminsByCondominiums` on its argument. -/
def normalizeCondoIds (xs : List JsNum) : List Int :=
  xs.filterMap JsNum.toInt?

/-- The admin-id target set computed by
`linkNotificationToAdminsByCondominiums` (source lines 854-902) before any
link row is written: empty when the normalized condominium list is empty
(early resolve with `linkedCount 0`), otherwise the matching admins in table
order. -/
def condoTargetAdmins (admins : List Admin) (normalized : List Int) : List Nat :=
  if normalized.isEmpty then []
  else (admins.filter (condoAdminMatch normalized)).map (fun a => a.id)

/-- The same target set starting from the raw condominium-id argument. -/
def linkAdminsByCondosTargets (admins : List Admin) (condominiumIds : List JsNum) : List Nat :=
  condoTargetAdmins admins (normalizeCondoIds condominiumIds)

/-- The per-admin `allow` flag computed by `POST /api/reclamacoes`
(source lines 5930-5950) given the numeric target condominium ids: `true` by
default (any non-`limited` scope), and for a limited admin `true` exactly when
the normalized allow-list is non-empty, the target list is non-empty, and the
two intersect. -/
def reclamacaoAllow (a : Admin) (targetCondoIds : List Int) : Bool :=
  if a.scope == "limited" then
    let allowed := normalizeAllowedCondominiums a.allowed_condominiums
    if allowed.isEmpty then false
    else if targetCondoIds.isEmpty then false
    else targetCondoIds.any (fun c => allowed.contains c)
  else true

/-- The target set of `linkNotificationToAllAdmins` (source lines 962-1004):
every admin row, with no scope or allow-list check. -/
def linkAllAdminsTargets (admins : List Admin) : List Nat :=
  admins.map (fun a => a.id)

/-- A row of the `admin_notifications` link table
(`admin_id`, `notification_id`, `read_status`). -/
structure AdminLink where
  admin_id : Nat
  notification_id : Nat
  read_status : Nat
  deriving DecidableEq, Repr

/-- A row of the `user_notifications` link table. -/
structure UserLink where
  user_id : Nat
  notification_id : Nat
  read_status : Nat
  deriving DecidableEq, Repr

/-- A row of the `notifications` table (immutable once inserted); `created_at`
is the insertion timestamp used by `ORDER BY n.created_at DESC`. -/
structure Notification where
  id : Nat
  type : String
  title : String
  message : String
  related_id : Option Nat
  condominium_id : Option Int
  user_id : Option Nat
  user_name : Option String
  created_at : Nat
  deriving DecidableEq, Repr

/-- The slice of the sqlite database the notification engine touches.
`users` rows are `(id, nome)`; `user_condos` rows are
`(user_id, condominium_id)` memberships; `admin_messages` rows are
`(id, admin_id)`; `admin_msg_condos` / `admin_msg_targets` rows are
`(message_id, condominium_id)` for the two compatibility link tables;
`user_messages` rows are `(id, user_id)`; `ocorrencias` rows are
`(id, condominium_id)`. -/
structure DB where
  users : List (Nat × String)
  admins : List Admin
  notifications : List Notification
  admin_links : List AdminLink
  user_links : List UserLink
  user_condos : List (Nat × Int)
  admin_messages : List (Nat × Nat)
  admin_msg_condos : List (Nat × Int)
  admin_msg_targets : List (Nat × Int)
  user_messages : List (Nat × Nat)
  ocorrencias : List (Nat × Int)
  deriving DecidableEq, Repr

/-- Primary-key lookup of a notification row. -/
def findNotif (db : DB) (nid : Nat) : Option Notification :=
  db.notifications.find? (fun n => n.id == nid)

/-- The row set of
`notifications n INNER JOIN admin_notifications an ON n.id = an.notification_id`
— restricted by `AND an.admin_id = ?` when an admin id is supplied (the
`adminId` branch of `GET /api/notifications`), unrestricted otherwise. -/
def adminJoin (db : DB) (adminId : Option Nat) : List (Notification × AdminLink) :=
  db.admin_links.filterMap (fun l =>
    if (match adminId with
        | some aid => l.admin_id == aid
        | none => true) then
      (findNotif db l.notification_id).map (fun n => (n, l))
    else none)

/-- Fresh id for a notification insert, mirroring sqlite AUTOINCREMENT and
the `this.lastID` the handler reads back. -/
def freshNotifId (db : DB) : Nat :=
  (db.notifications.map (fun n => n.id)).foldr max 0 + 1

/-- Fresh id for an `admin_messages` insert, mirroring sqlite AUTOINCREMENT. -/
def freshMsgId (db : DB) : Nat :=
  (db.admin_messages.map (fun m => m.1)).foldr max 0 + 1

/-!
Link writer and the admin_notifications schema.

`initializeDatabase` submits two `CREATE TABLE IF NOT EXISTS admin_notifications`
statements on the same serialized connection, in source order: the one at
line 340 declares `(id, admin_id, notification_id, read_status, created_at)`
with no pair constraint, and the one at line 568 additionally declares
`UNIQUE(admin_id, notification_id)`.  With `IF NOT EXISTS`, the first executed
statement fixes the schema and the second is a no-op.
-/

/-- Whether each of the two `CREATE TABLE IF NOT EXISTS admin_notifications`
statements, in execution order, declares `UNIQUE(admin_id, notification_id)`. -/
def adminNotificationsCreateHasUnique : List Bool := [false, true]

/-- The effective schema: the first executed `CREATE TABLE IF NOT EXISTS`
wins, so the deployed `admin_notifications` table has no
`UNIQUE(admin_id, notification_id)` constraint. -/
def adminNotificationsHasUniquePair : Bool :=
  adminNotificationsCreateHasUnique.headD true

/-- One `INSERT OR IGNORE INTO admin_notifications` against a table whose
schema may or may not carry the `UNIQUE(admin_id, notification_id)`
constraint: with the constraint a duplicate pair is silently skipped, without
it the row is always appended. -/
def insertOrIgnoreAdminLink (hasUnique : Bool) (t : List AdminLink) (aid nid : Nat) :
    List AdminLink :=
  if hasUnique && t.any (fun l => l.admin_id == aid && l.notification_id == nid) then t
  else t ++ [⟨aid, nid, 0⟩]

/-- The link fan-out loops of `linkNotificationToAdmins` /
`linkNotificationToAdminsByCondominiums` / `linkNotificationToAllAdmins`: one
`INSERT OR IGNORE` per target admin id. -/
def writeAdminLinks (hasUnique : Bool) (t : List AdminLink) (nid : Nat)
    (targets : List Nat) : List AdminLink :=
  targets.foldl (fun acc aid => insertOrIgnoreAdminLink hasUnique acc aid nid) t

/-- Function `linkNotificationToUsers` (source lines 934-960) on the `user_notifications`
table (whose schema does declare `UNIQUE(user_id, notification_id)`): a plain
`INSERT INTO user_notifications SELECT DISTINCT uc.user_id, ?, 0, ... WHERE
uc.condominium_id IN (...)`.  An empty condominium list short-circuits with
0 links; a duplicate `(user_id, notification_id)` pair makes the whole
statement fail with a constraint error, reported through the error callback. -/
def linkNotificationToUsersRows (memberships : List (Nat × Int))
    (existing : List UserLink) (nid : Nat) (condoIds : List Int) :
    Except String (List UserLink) :=
  if condoIds.isEmpty then .ok existing
  else
    let targetUsers :=
      ((memberships.filter (fun uc => condoIds.contains uc.2)).map (fun uc => uc.1)).dedup
    if targetUsers.any (fun u =>
        existing.any (fun l => l.user_id == u && l.notification_id == nid)) then
      .error "UNIQUE constraint failed"
    else
      .ok (existing ++ targetUsers.map (fun u => ⟨u, nid, 0⟩))

/-!
Fan-out completion accounting.

`linkNotificationToAdmins` (source lines 806-831) counts per-target successes
and failures; once every attempt has completed it reports
`callback(null, linksCreated)` when at least one link was written and
an error callback carrying the text Failed to link notification to any
admins, with count 0, when
none was.  `linkNotificationToAdminsByCondominiums` (source lines 904-921)
instead always resolves its promise with the success count, even when that
count is zero.  The per-target store outcome is abstracted as `ok : Nat → Bool`.
-/

/-- Aggregate result reported by `linkNotificationToAdmins` for a target list:
0 with no error when there is no target, the success count when some write
succeeded, and an error when every write failed. -/
def linkFanOutResult (targets : List Nat) (ok : Nat → Bool) : Except String Nat :=
  if targets.isEmpty then .ok 0
  else
    let s := (targets.filter ok).length
    if s > 0 then .ok s else .error "Failed to link notification to any admins"

/-- Aggregate result of the write loop of `linkNotificationToAdminsByCondominiums`:
the promise always resolves with the success count, never rejecting on
per-target write failures. -/
def linkFanOutResultByCondos (targets : List Nat) (ok : Nat → Bool) : Except String Nat :=
  .ok ((targets.filter ok).length)

/-- Effect of a fan-out on the database: the already-inserted notification
rows are untouched and exactly the successful subset of link rows is
appended (no rollback of anything on partial failure). -/
def applyAdminFanOut (db : DB) (nid : Nat) (targets : List Nat) (ok : Nat → Bool) : DB :=
  { db with admin_links :=
      db.admin_links ++ (targets.filter ok).map (fun a => ⟨a, nid, 0⟩) }

/-!
Modelling ORDER BY created_at DESC LIMIT 100.

Insertion sort on a `Nat` key, descending; `LIMIT 100` is `List.take 100`.
SQL promises no stability, only sortedness, which is all the theorems use.
-/

/-- Insert an element into a descending-by-key sorted list. -/
def insertByKeyDesc {α : Type} (key : α → Nat) (x : α) : List α → List α
  | [] => [x]
  | y :: ys => if key y < key x then x :: y :: ys else y :: insertByKeyDesc key x ys

/-- Sort a list descending by a `Nat` key. -/
def sortByKeyDesc {α : Type} (key : α → Nat) (l : List α) : List α :=
  l.foldr (insertByKeyDesc key) []

/-- The sort key of the notification list query: the `created_at` field of
the notification row. -/
def rowCreatedAt (r : Notification × AdminLink) : Nat :=
  r.1.created_at

/-- The clause `ORDER BY n.created_at DESC LIMIT 100` applied to a joined row set. -/
def listCap (rs : List (Notification × AdminLink)) : List (Notification × AdminLink) :=
  (sortByKeyDesc rowCreatedAt rs).take 100

/-!
Read-path permission filter (defense in depth).

The SQL condition block shared by `GET /api/notifications`
(source lines 5387-5426) and `GET /api/notifications/unread-count`
(source lines 5573-5607), applied only for a limited admin with a non-empty
allowed-condominium list.
-/

/-- Notification types scoped through the memberships of the originating user. -/
def userScopedTypes : List String :=
  ["complaint", "request", "reclamacao", "pedido", "profile_change"]

/-- Notification types scoped through the referenced `ocorrencias` row. -/
def ocorrenciaScopedTypes : List String :=
  ["ocorrencia", "new_ocorrencia", "maintenance", "maintenance_completed"]

/-- Notification types scoped by the own `condominium_id` of the notification. -/
def directScopedTypes : List String :=
  ["assembleia", "document", "maintenance_completed"]

/-- The four-way disjunction the read path ANDs onto the join for a limited
admin: admin messages via `admin_message_condominiums`, user-scoped types via
`user_condominiums`, occurrence-scoped types via `ocorrencias`, and
direct-`condominium_id` types. -/
def notifMatchesPerm (db : DB) (allowed : List Int) (n : Notification) : Bool :=
  (n.type == "admin_message" &&
    db.admin_msg_condos.any (fun mc =>
      some mc.1 == n.related_id && allowed.contains mc.2))
  || (userScopedTypes.contains n.type &&
    db.user_condos.any (fun uc =>
      some uc.1 == n.user_id && allowed.contains uc.2))
  || (ocorrenciaScopedTypes.contains n.type &&
    db.ocorrencias.any (fun o =>
      some o.1 == n.related_id && allowed.contains o.2))
  || (directScopedTypes.contains n.type &&
    (match n.condominium_id with
     | some c => allowed.contains c
     | none => false))

/-- Outcome of `GET /api/notifications`: a 400 when neither an admin id nor a
permission header is present, otherwise the joined rows. -/
inductive ListOutcome where
  | badRequest
  | rows (rs : List (Notification × AdminLink))
  deriving DecidableEq, Repr

/-- Whether the `admin-permissions` header was supplied at all. -/
def permPresent : PermHeader → Bool
  | .absent => false
  | _ => true

/-- Handler `GET /api/notifications` (source lines 5338-5490).  Joins notifications
with admin links (scoped to `adminId` when present, over the links of every admin
otherwise), then: full access (absent header or `scope: "full"`) returns the
join unfiltered; a limited/malformed descriptor with an empty allowed list
returns `[]` before querying; a non-empty allowed list ANDs the permission
filter onto the join.  Rows are ordered by `created_at` descending, capped at
100. -/
def getNotifications (db : DB) (adminId : Option Nat) (perm : PermHeader) : ListOutcome :=
  if adminId.isNone && !permPresent perm then .badRequest
  else
    let joined := adminJoin db adminId
    match getAdminAllowedCondos perm with
    | none => .rows (listCap joined)
    | some [] => .rows []
    | some allowed =>
        .rows (listCap (joined.filter (fun r => notifMatchesPerm db allowed r.1)))

/-- The returned row list of `GET /api/notifications` (empty on a 400). -/
def listedRows (db : DB) (adminId : Option Nat) (perm : PermHeader) :
    List (Notification × AdminLink) :=
  match getNotifications db adminId perm with
  | .badRequest => []
  | .rows rs => rs

/-- Handler `GET /api/notifications/unread-count` (source lines 5549-5610): 400
without an admin id (`none`); a limited/malformed descriptor with an empty
allowed list answers 0 before querying; otherwise the count of unread join
rows for this admin, with the permission filter ANDed on for a limited
admin. -/
def unreadCount (db : DB) (adminId : Option Nat) (perm : PermHeader) : Option Nat :=
  match adminId with
  | none => none
  | some aid =>
    match getAdminAllowedCondos perm with
    | none =>
        some ((adminJoin db (some aid)).filter
          (fun r => r.2.read_status == 0)).length
    | some [] => some 0
    | some allowed =>
        some ((adminJoin db (some aid)).filter
          (fun r => r.2.read_status == 0 && notifMatchesPerm db allowed r.1)).length

/-!
Mark-read.
-/

/-- The predicate `WHERE notification_id = ? AND admin_id = ?` of the mark-read update. -/
def linkMatches (aid nid : Nat) (l : AdminLink) : Bool :=
  l.admin_id == aid && l.notification_id == nid

/-- Outcome of `PUT /api/notifications/:id/read`. -/
inductive MarkResult where
  | badRequest
  | notFound
  | ok
  deriving DecidableEq, Repr

/-- Handler `PUT /api/notifications/:id/read` (source lines 5491-5519): 400 without
an admin id; otherwise
`UPDATE admin_notifications SET read_status = 1 WHERE notification_id = ? AND admin_id = ?`,
answering 404 exactly when `this.changes` — the number of rows the `WHERE`
clause matched — is zero. -/
def markNotificationRead (db : DB) (adminId : Option Nat) (nid : Nat) : DB × MarkResult :=
  match adminId with
  | none => (db, .badRequest)
  | some aid =>
    if (db.admin_links.filter (linkMatches aid nid)).length == 0 then (db, .notFound)
    else
      ({ db with admin_links := db.admin_links.map (fun l =>
          if linkMatches aid nid l then { l with read_status := 1 } else l) },
       .ok)

/-!
Handler POST /api/admin/messages.
-/

/-- Outcome of `POST /api/admin/messages`. -/
inductive PostMsgResult where
  | errAdminRequired
  | errNoTargets
  | errForbidden
  | errStore
  | ok (messageId : Nat) (notificationId : Nat)
  deriving DecidableEq, Repr

/-- The permission gate of `POST /api/admin/messages` (source lines
4009-4026): with no header, an unparseable header (the `catch` logs and falls
through), or a non-`limited` scope the supplied target list is used as is;
with a limited scope the target list is filtered to the normalized sender
allow-list, and `none` (HTTP 403) is answered when that intersection is
empty. -/
def effectiveTargets (targets : List Int) (perm : PermHeader) : Option (List Int) :=
  match perm with
  | .scopeLimited raw =>
    let allowed := normalizeAllowedCondominiums raw
    let filtered := targets.filter (fun c => allowed.contains c)
    if filtered.isEmpty then none else some filtered
  | _ => some targets

/-- Handler `POST /api/admin/messages` (source lines 3980-4130), file storage elided:
400 without an `admin-id` header; 400 when the normalized target condominium
list is empty; 403 (before any insert) when the intersection for a limited sender is
empty.  Otherwise: insert the message row, link it to the effective target
condominiums in both compatibility tables, insert the `admin_message`
notification (direct `condominium_id` = first effective target), link it to
the member users of the effective targets (a store error there is caught by
the surrounding `try` after the earlier inserts persisted), then link it to
the admins managing the effective targets. -/
def postAdminMessages (db : DB) (adminId : Option Nat) (rawCondos : List JsNum)
    (perm : PermHeader) (title : String) (now : Nat) : DB × PostMsgResult :=
  match adminId with
  | none => (db, .errAdminRequired)
  | some aid =>
    let targetCondos := rawCondos.filterMap JsNum.toInt?
    if targetCondos.isEmpty then (db, .errNoTargets)
    else
      match effectiveTargets targetCondos perm with
      | none => (db, .errForbidden)
      | some ts =>
        let mid := freshMsgId db
        let db1 := { db with
          admin_messages := db.admin_messages ++ [(mid, aid)],
          admin_msg_condos := db.admin_msg_condos ++ ts.map (fun c => (mid, c)),
          admin_msg_targets := db.admin_msg_targets ++ ts.map (fun c => (mid, c)) }
        let nid := freshNotifId db1
        let notif : Notification :=
          { id := nid, type := "admin_message", title := "📣 Nova mensagem",
            message := "Nova mensagem administrativa: " ++ title,
            related_id := some mid, condominium_id := ts.head?,
            user_id := none, user_name := none, created_at := now }
        let db2 := { db1 with notifications := db1.notifications ++ [notif] }
        match linkNotificationToUsersRows db2.user_condos db2.user_links nid ts with
        | .error _ => (db2, .errStore)
        | .ok userLinks =>
          let db3 := { db2 with user_links := userLinks }
          let db4 := { db3 with admin_links := db3.admin_links ++
            (condoTargetAdmins db3.admins ts).map (fun a => ⟨a, nid, 0⟩) }
          (db4, .ok mid nid)

/-!
Handler DELETE /api/users/:id.
-/

/-- Outcome of `DELETE /api/users/:id`. -/
inductive DeleteUserResult where
  | notFound
  | ok
  deriving DecidableEq, Repr

/-- Handler `DELETE /api/users/:id` (source lines 6112-6174): 404 when the user row
does not exist; otherwise delete the memberships, messages and user
row, then insert a `user_deleted` notification
(`INSERT INTO notifications (type, title, message)` — no related id,
condominium or user reference) and answer 200.  No admin link row is written
for the notification: no linking helper is invoked on this path. -/
def deleteUser (db : DB) (uid : Nat) (now : Nat) : DB × DeleteUserResult :=
  match db.users.find? (fun u => u.1 == uid) with
  | none => (db, .notFound)
  | some u =>
    let db1 := { db with
      user_condos := db.user_condos.filter (fun uc => uc.1 != uid),
      user_messages := db.user_messages.filter (fun m => m.2 != uid),
      users := db.users.filter (fun v => v.1 != uid) }
    let notif : Notification :=
      { id := freshNotifId db1, type := "user_deleted",
        title := "Utilizador Eliminado",
        message := "O utilizador \"" ++ u.2 ++ "\" foi eliminado do sistema",
        related_id := none, condominium_id := none, user_id := none,
        user_name := none, created_at := now }
    ({ db1 with notifications := db1.notifications ++ [notif] }, .ok)

/-!
SSE broadcast.

`sseClients` is a map from admin id to the list of open response streams; a
session is represented here by whether a write to it succeeds (`true`) or
throws (`false`).
-/

/-- The lookup `sseClients.get(key) || []`. -/
def sseSessions (registry : List (Nat × List Bool)) (adminId : Nat) : List Bool :=
  ((registry.find? (fun e => e.1 == adminId)).map (fun e => e.2)).getD []

/-- The delivery loop of `sendSseToAdmin` (source lines 1025-1039): each
session write is wrapped in its own `try`/`catch`, so a throwing write is
recorded (as a logged warning) and iteration continues with the next session;
the loop itself never throws. -/
def sseLoop : List Bool → List (Except String Unit)
  | [] => []
  | s :: rest =>
    (if s then Except.ok () else Except.error "write failed") :: sseLoop rest

/-- Function `sendSseToAdmin(adminId, ...)`: look up the sessions of the admin (an
unregistered admin yields `[]`, making the call a no-op via the early
`return`) and run the delivery loop.  The result is a plain value:
no failure is ever surfaced to the caller. -/
def sendSseToAdmin (registry : List (Nat × List Bool)) (adminId : Nat) :
    List (Except String Unit) :=
  sseLoop (sseSessions registry adminId)

/-!
Helper lemmas.
-/

theorem mem_insertByKeyDesc {α : Type} (key : α → Nat) (x a : α) (l : List α) :
    a ∈ insertByKeyDesc key x l ↔ a = x ∨ a ∈ l := by
  induction l with
  | nil => simp [insertByKeyDesc]
  | cons y ys ih =>
    unfold insertByKeyDesc
    by_cases h : key y < key x
    · simp [h]
    · simp only [if_neg h, List.mem_cons, ih]
      tauto

theorem length_insertByKeyDesc {α : Type} (key : α → Nat) (x : α) (l : List α) :
    (insertByKeyDesc key x l).length = l.length + 1 := by
  induction l with
  | nil => rfl
  | cons y ys ih =>
    unfold insertByKeyDesc
    by_cases h : key y < key x
    · simp [h]
    · simp [if_neg h, ih]

theorem mem_sortByKeyDesc {α : Type} (key : α → Nat) (a : α) (l : List α) :
    a ∈ sortByKeyDesc key l ↔ a ∈ l := by
  induction l with
  | nil => simp [sortByKeyDesc]
  | cons y ys ih =>
    simp only [sortByKeyDesc, List.foldr_cons] at *
    rw [mem_insertByKeyDesc, ih, List.mem_cons]

theorem length_sortByKeyDesc {α : Type} (key : α → Nat) (l : List α) :
    (sortByKeyDesc key l).length = l.length := by
  induction l with
  | nil => rfl
  | cons y ys ih =>
    simp only [sortByKeyDesc, List.foldr_cons] at *
    rw [length_insertByKeyDesc, ih]
    rfl

theorem pairwise_insertByKeyDesc {α : Type} (key : α → Nat) (x : α) (l : List α)
    (h : l.Pairwise (fun a b => key b ≤ key a)) :
    (insertByKeyDesc key x l).Pairwise (fun a b => key b ≤ key a) := by
  induction l with
  | nil => simp [insertByKeyDesc]
  | cons y ys ih =>
    rcases List.pairwise_cons.mp h with ⟨hy, hys⟩
    unfold insertByKeyDesc
    by_cases hlt : key y < key x
    · rw [if_pos hlt]
      refine List.pairwise_cons.mpr ⟨?_, h⟩
      intro z hz
      rcases List.mem_cons.mp hz with hz | hz
      · exact hz ▸ Nat.le_of_lt hlt
      · exact Nat.le_trans (hy z hz) (Nat.le_of_lt hlt)
    · rw [if_neg hlt]
      refine List.pairwise_cons.mpr ⟨?_, ih hys⟩
      intro z hz
      rcases (mem_insertByKeyDesc key x z ys).mp hz with hz | hz
      · exact hz ▸ Nat.le_of_not_lt hlt
      · exact hy z hz

theorem pairwise_sortByKeyDesc {α : Type} (key : α → Nat) (l : List α) :
    (sortByKeyDesc key l).Pairwise (fun a b => key b ≤ key a) := by
  induction l with
  | nil => exact List.Pairwise.nil
  | cons y ys ih =>
    exact pairwise_insertByKeyDesc key y _ ih

theorem find_by_id_eq_some_self (l : List Notification) (n : Notification)
    (hids : (l.map (fun m => m.id)).Nodup) (hn : n ∈ l) :
    l.find? (fun m => m.id == n.id) = some n := by
  induction l with
  | nil => cases hn
  | cons m rest ih =>
    rcases List.mem_cons.mp hn with rfl | hmem
    · simp [List.find?]
    · have hsplit : (∀ x ∈ rest, ¬x.id = m.id) ∧
          ((rest.map (fun m => m.id)).Nodup) := by
        simpa using hids
      have hne : (m.id == n.id) = false := by
        apply beq_eq_false_iff_ne.mpr
        intro heq
        exact hsplit.1 n hmem heq.symm
      rw [List.find?_cons, hne]
      exact ih hsplit.2 hmem

theorem findNotif_eq_some_self (db : DB) (n : Notification)
    (hids : (db.notifications.map (fun m => m.id)).Nodup)
    (hn : n ∈ db.notifications) : findNotif db n.id = some n :=
  find_by_id_eq_some_self db.notifications n hids hn

theorem mem_condoTargetAdmins (admins : List Admin) (a : Admin) (normalized : List Int)
    (hids : (admins.map (fun b => b.id)).Nodup) (ha : a ∈ admins) :
    a.id ∈ condoTargetAdmins admins normalized ↔
      normalized ≠ [] ∧ condoAdminMatch normalized a = true := by
  unfold condoTargetAdmins
  by_cases hn : normalized.isEmpty
  · simp [hn, List.isEmpty_iff.mp hn]
  · rw [if_neg hn]
    have hne : normalized ≠ [] := fun h => hn (by simp [h])
    constructor
    · intro hm
      rcases List.mem_map.mp hm with ⟨b, hbf, hbid⟩
      rcases List.mem_filter.mp hbf with ⟨hb, hmatch⟩
      have hba : b = a := List.inj_on_of_nodup_map hids hb ha hbid
      exact ⟨hne, hba ▸ hmatch⟩
    · intro ⟨_, hmatch⟩
      exact List.mem_map.mpr ⟨a, List.mem_filter.mpr ⟨ha, hmatch⟩, rfl⟩

theorem condoAdminMatch_limited (a : Admin) (condos : List Int)
    (hscope : a.scope = "limited") :
    (condoAdminMatch condos a = true ↔
      ∃ c ∈ condos, c ∈ normalizeAllowedCondominiums a.allowed_condominiums) := by
  unfold condoAdminMatch
  rw [hscope]
  by_cases he : (normalizeAllowedCondominiums a.allowed_condominiums).isEmpty
  · simp [he, List.isEmpty_iff.mp he]
  · simp [he, List.any_eq_true]

theorem reclamacaoAllow_limited (a : Admin) (targets : List Int)
    (hscope : a.scope = "limited") :
    (reclamacaoAllow a targets = true ↔
      ∃ c ∈ targets, c ∈ normalizeAllowedCondominiums a.allowed_condominiums) := by
  unfold reclamacaoAllow
  rw [hscope]
  by_cases he : (normalizeAllowedCondominiums a.allowed_condominiums).isEmpty
  · simp [he, List.isEmpty_iff.mp he]
  · by_cases ht : targets.isEmpty
    · simp [he, ht, List.isEmpty_iff.mp ht]
    · simp [he, ht, List.any_eq_true]

/-!
Claims.
-/

/-- C1: for every administrator with scope `limited` and normalized
allow-list `S`, the condominium-scoped targeting step
(`linkNotificationToAdminsByCondominiums`) links the administrator iff the
normalized originating condominium list intersects `S` (for a single
originating condominium `c`, iff `c ∈ S`); an empty `S` means the
administrator is never targeted; and the `POST /api/reclamacoes` per-admin
`allow` flag agrees with the same intersection rule. -/
theorem c1_limited_admin_condo_targeting
    (admins : List Admin) (a : Admin) (condominiumIds : List JsNum)
    (hids : (admins.map (fun b => b.id)).Nodup)
    (ha : a ∈ admins) (hscope : a.scope = "limited") :
    (a.id ∈ linkAdminsByCondosTargets admins condominiumIds ↔
      ∃ c ∈ normalizeCondoIds condominiumIds,
        c ∈ normalizeAllowedCondominiums a.allowed_condominiums)
    ∧ (normalizeAllowedCondominiums a.allowed_condominiums = [] →
      a.id ∉ linkAdminsByCondosTargets admins condominiumIds)
    ∧ (reclamacaoAllow a (normalizeCondoIds condominiumIds) = true ↔
      ∃ c ∈ normalizeCondoIds condominiumIds,
        c ∈ normalizeAllowedCondominiums a.allowed_condominiums) := by
  have hmain : a.id ∈ linkAdminsByCondosTargets admins condominiumIds ↔
      ∃ c ∈ normalizeCondoIds condominiumIds,
        c ∈ normalizeAllowedCondominiums a.allowed_condominiums := by
    rw [linkAdminsByCondosTargets,
      mem_condoTargetAdmins admins a (normalizeCondoIds condominiumIds) hids ha,
      condoAdminMatch_limited a (normalizeCondoIds condominiumIds) hscope]
    constructor
    · exact fun h => h.2
    · rintro ⟨c, hc, hcS⟩
      exact ⟨fun h => by simp [h] at hc, ⟨c, hc, hcS⟩⟩
  refine ⟨hmain, ?_, reclamacaoAllow_limited a _ hscope⟩
  intro hS hmem
  rcases hmain.mp hmem with ⟨c, _, hcS⟩
  simp [hS] at hcS

/-- Sample limited administrator for the C1 witness: allow-list `{3, 4}`. -/
def c1SampleAdmin : Admin :=
  ⟨1, "ana", "limited", .parsedList [.num 3, .num 4]⟩

/-- Witness for C1: a limited admin with allow-list `{3, 4}` and an event in
condominium 3 is targeted (3 is in the allow-list), instantiating every
hypothesis of the theorem concretely. -/
theorem c1_limited_admin_condo_targeting_witness :
    ((([c1SampleAdmin] : List Admin).map (fun b => b.id)).Nodup ∧
      c1SampleAdmin ∈ [c1SampleAdmin] ∧ c1SampleAdmin.scope = "limited") ∧
    ((c1SampleAdmin.id ∈ linkAdminsByCondosTargets [c1SampleAdmin] [.num 3] ↔
      ∃ c ∈ normalizeCondoIds [.num 3],
        c ∈ normalizeAllowedCondominiums c1SampleAdmin.allowed_condominiums)
    ∧ (normalizeAllowedCondominiums c1SampleAdmin.allowed_condominiums = [] →
      c1SampleAdmin.id ∉ linkAdminsByCondosTargets [c1SampleAdmin] [.num 3])
    ∧ (reclamacaoAllow c1SampleAdmin (normalizeCondoIds [.num 3]) = true ↔
      ∃ c ∈ normalizeCondoIds [.num 3],
        c ∈ normalizeAllowedCondominiums c1SampleAdmin.allowed_condominiums)) :=
  ⟨⟨by decide, by decide, rfl⟩,
    c1_limited_admin_condo_targeting [c1SampleAdmin] c1SampleAdmin [.num 3]
      (by decide) (by decide) rfl⟩

/-- C2: the deployed `admin_notifications` table is created by the first
executed `CREATE TABLE IF NOT EXISTS` statement, which lacks
`UNIQUE(admin_id, notification_id)`; consequently re-running the admin link
writer with the same notification id and target set appends duplicate rows
(2 rows instead of 1), even though with the constraint the intended schema
declares (second `CREATE`, shadowed) the `INSERT OR IGNORE` would be
idempotent.  On the user side, `user_notifications` does carry its unique
pair constraint, but `linkNotificationToUsers` uses a plain `INSERT`, so a
re-run fails with a constraint error instead of being silently ignored. -/
theorem c2_link_writer_not_idempotent :
    adminNotificationsHasUniquePair = false
    ∧ (writeAdminLinks adminNotificationsHasUniquePair
        (writeAdminLinks adminNotificationsHasUniquePair [] 10 [1]) 10 [1]).length = 2
    ∧ (writeAdminLinks true (writeAdminLinks true [] 10 [1]) 10 [1]).length = 1
    ∧ linkNotificationToUsersRows [(7, 3)] [] 10 [3] = .ok [⟨7, 10, 0⟩]
    ∧ linkNotificationToUsersRows [(7, 3)] [⟨7, 10, 0⟩] 10 [3] =
        .error "UNIQUE constraint failed" := by
  refine ⟨rfl, rfl, rfl, ?_, ?_⟩ <;> rfl

/-- Database used for the C4 evaluation: one user (id 5) in condominium 3 and
two administrators (a limited one with an empty allow-list and a full one). -/
def c4Db : DB :=
  { users := [(5, "Maria")],
    admins := [⟨1, "ana", "limited", .falsy⟩, ⟨2, "bruno", "full", .falsy⟩],
    notifications := [], admin_links := [], user_links := [],
    user_condos := [(5, 3)], admin_messages := [], admin_msg_condos := [],
    admin_msg_targets := [], user_messages := [], ocorrencias := [] }

/-- C4, evaluated at the failing input: deleting user 5 succeeds and inserts
the `user_deleted` notification, but the handler writes no admin link row at
all — even though the (never invoked) `linkNotificationToAllAdmins` helper
would target every administrator `[1, 2]` unconditionally. -/
theorem c4_user_deleted_links_no_admin :
    (deleteUser c4Db 5 99).2 = .ok
    ∧ ((deleteUser c4Db 5 99).1.notifications.map (fun n => n.type)) = ["user_deleted"]
    ∧ (deleteUser c4Db 5 99).1.admin_links = []
    ∧ linkAllAdminsTargets c4Db.admins = [1, 2] := by
  refine ⟨rfl, rfl, rfl, rfl⟩

/-- Counterexample to C6 as stated: a fan-out over the non-empty target set
`[1]` in which the single link write fails makes `linkNotificationToAdmins`
invoke its callback with an error instead of an aggregated count 0. -/
theorem c6_counterexample_all_writes_fail :
    linkFanOutResult [1] (fun _ => false) =
      .error "Failed to link notification to any admins" := rfl

/-- C6 (amended): per-target failures during the fan-out are counted, and
whenever at least one write succeeds `linkNotificationToAdmins` reports the
aggregated success count with no error; `linkNotificationToAdminsByCondominiums`
never propagates per-target failures regardless of outcome; and the fan-out
leaves the already-created notification rows untouched while persisting
exactly the successful subset of links.  (Only when every write fails does
`linkNotificationToAdmins` pass an error to its callback.) -/
theorem c6_partial_failure_nonfatal (targets : List Nat) (ok : Nat → Bool)
    (hsome : ∃ t ∈ targets, ok t = true) :
    linkFanOutResult targets ok = .ok ((targets.filter ok).length)
    ∧ 0 < (targets.filter ok).length
    ∧ (∀ ok2 : Nat → Bool, linkFanOutResultByCondos targets ok2 =
        .ok ((targets.filter ok2).length))
    ∧ (∀ (db : DB) (nid : Nat),
        (applyAdminFanOut db nid targets ok).notifications = db.notifications
        ∧ (applyAdminFanOut db nid targets ok).admin_links =
          db.admin_links ++ (targets.filter ok).map (fun a => ⟨a, nid, 0⟩)) := by
  rcases hsome with ⟨t, ht, hok⟩
  have hmemf : t ∈ targets.filter ok := List.mem_filter.mpr ⟨ht, hok⟩
  have hpos : 0 < (targets.filter ok).length :=
    List.length_pos.mpr (List.ne_nil_of_mem hmemf)
  have hne : targets.isEmpty = false := by
    cases targets with
    | nil => cases ht
    | cons x xs => rfl
  refine ⟨?_, hpos, fun ok2 => rfl, fun db nid => ⟨rfl, rfl⟩⟩
  unfold linkFanOutResult
  rw [hne]
  simp [hpos]

/-- Witness for C6 (amended): target set `[1, 2]` where the write for admin 1
fails and the write for admin 2 succeeds; the fan-out reports count 1 with no
error. -/
theorem c6_partial_failure_nonfatal_witness :
    (∃ t ∈ [1, 2], (fun x => x == 2) t = true) ∧
    linkFanOutResult [1, 2] (fun x => x == 2) =
        .ok (([1, 2].filter (fun x => x == 2)).length)
      ∧ 0 < (([1, 2].filter (fun x => x == 2)).length) :=
  ⟨⟨2, by decide, by decide⟩,
    (c6_partial_failure_nonfatal [1, 2] (fun x => x == 2) ⟨2, by decide, by decide⟩).1,
    (c6_partial_failure_nonfatal [1, 2] (fun x => x == 2) ⟨2, by decide, by decide⟩).2.1⟩

/-- C3: with an admin id but no `admin-permissions` header the read endpoints
treat the caller as full access (the list is the unfiltered, ordered, capped
join, identical to an explicit `scope: "full"` descriptor), whereas a
malformed descriptor, or a limited descriptor whose allow-list normalizes to
the empty set, yields no access: an empty list and a zero unread count. -/
theorem c3_absent_header_full_vs_empty_limited_denied
    (db : DB) (aid : Nat) (raw : RawPerm)
    (hraw : normalizeAllowedCondominiums raw = []) :
    getAdminAllowedCondos .absent = none
    ∧ getNotifications db (some aid) .absent =
        .rows (listCap (adminJoin db (some aid)))
    ∧ getNotifications db (some aid) .absent =
        getNotifications db (some aid) .scopeFull
    ∧ getAdminAllowedCondos .malformed = some []
    ∧ getNotifications db (some aid) .malformed = .rows []
    ∧ getNotifications db (some aid) (.scopeLimited raw) = .rows []
    ∧ unreadCount db (some aid) .malformed = some 0
    ∧ unreadCount db (some aid) (.scopeLimited raw) = some 0 := by
  refine ⟨rfl, rfl, rfl, rfl, rfl, ?_, rfl, ?_⟩
  · simp [getNotifications, getAdminAllowedCondos, permPresent, hraw]
  · simp [unreadCount, getAdminAllowedCondos, hraw]

/-- Sample database for the read-path witnesses: a limited admin 1 (allow-list
`{3}`), a full admin 2, an occurrence notification for condominium 3 and a
complaint notification from a user living in condominium 4, all linked to
admin 1, the occurrence also linked to admin 2. -/
def readDb : DB :=
  { users := [(7, "Rui")],
    admins := [⟨1, "ana", "limited", .parsedList [.num 3]⟩,
               ⟨2, "bruno", "full", .falsy⟩],
    notifications :=
      [{ id := 1, type := "ocorrencia", title := "t1", message := "m1",
         related_id := some 20, condominium_id := some 3, user_id := none,
         user_name := none, created_at := 10 },
       { id := 2, type := "reclamacao", title := "t2", message := "m2",
         related_id := some 30, condominium_id := some 4, user_id := some 7,
         user_name := some "Rui", created_at := 11 }],
    admin_links := [⟨1, 1, 0⟩, ⟨1, 2, 0⟩, ⟨2, 1, 0⟩],
    user_links := [],
    user_condos := [(7, 4)],
    admin_messages := [], admin_msg_condos := [], admin_msg_targets := [],
    user_messages := [],
    ocorrencias := [(20, 3)] }

/-- Witness for C3 at `readDb`, admin 1, and the limited descriptor whose
allow-list `[]` normalizes to the empty set. -/
theorem c3_absent_header_full_vs_empty_limited_denied_witness :
    normalizeAllowedCondominiums (.parsedList []) = []
    ∧ (getAdminAllowedCondos .absent = none
    ∧ getNotifications readDb (some 1) .absent =
        .rows (listCap (adminJoin readDb (some 1)))
    ∧ getNotifications readDb (some 1) .absent =
        getNotifications readDb (some 1) .scopeFull
    ∧ getAdminAllowedCondos .malformed = some []
    ∧ getNotifications readDb (some 1) .malformed = .rows []
    ∧ getNotifications readDb (some 1) (.scopeLimited (.parsedList [])) = .rows []
    ∧ unreadCount readDb (some 1) .malformed = some 0
    ∧ unreadCount readDb (some 1) (.scopeLimited (.parsedList [])) = some 0) :=
  ⟨rfl, c3_absent_header_full_vs_empty_limited_denied readDb 1 (.parsedList []) rfl⟩

/-- C5: when a limited administrator posts a broadcast message, the supplied
target condominium list is intersected with the normalized sender
allow-list before any row is written: an empty intersection makes the whole
action fail with 403 and leaves the database untouched (no message, no
notification, no links), while a non-empty intersection proceeds (never 403)
and records exactly the intersected list as the target
condominiums. -/
theorem c5_limited_sender_target_intersection
    (db : DB) (aid : Nat) (rawCondos : List JsNum) (raw : RawPerm)
    (title : String) (now : Nat)
    (hne : rawCondos.filterMap JsNum.toInt? ≠ []) :
    ((rawCondos.filterMap JsNum.toInt?).filter
        (fun c => (normalizeAllowedCondominiums raw).contains c) = [] →
      postAdminMessages db (some aid) rawCondos (.scopeLimited raw) title now =
        (db, .errForbidden))
    ∧ ((rawCondos.filterMap JsNum.toInt?).filter
        (fun c => (normalizeAllowedCondominiums raw).contains c) ≠ [] →
      (postAdminMessages db (some aid) rawCondos (.scopeLimited raw) title now).1.admin_msg_condos =
        db.admin_msg_condos ++
          ((rawCondos.filterMap JsNum.toInt?).filter
            (fun c => (normalizeAllowedCondominiums raw).contains c)).map
            (fun c => (freshMsgId db, c))
      ∧ (postAdminMessages db (some aid) rawCondos (.scopeLimited raw) title now).2 ≠
          .errForbidden) := by
  have hempty : (rawCondos.filterMap JsNum.toInt?).isEmpty = false := by
    cases hcase : rawCondos.filterMap JsNum.toInt? with
    | nil => exact absurd hcase hne
    | cons x xs => rfl
  constructor
  · intro hfil
    simp only [postAdminMessages, hempty, Bool.false_eq_true, if_false,
      effectiveTargets, hfil, List.isEmpty_nil, if_true]
  · intro hfil
    have hfilEmpty : ((rawCondos.filterMap JsNum.toInt?).filter
        (fun c => (normalizeAllowedCondominiums raw).contains c)).isEmpty = false := by
      cases hcase : (rawCondos.filterMap JsNum.toInt?).filter
          (fun c => (normalizeAllowedCondominiums raw).contains c) with
      | nil => exact absurd hcase hfil
      | cons x xs => rfl
    simp only [postAdminMessages, hempty, Bool.false_eq_true, if_false,
      effectiveTargets, hfilEmpty]
    cases hlink : linkNotificationToUsersRows
        ({ db with
          admin_messages := db.admin_messages ++ [(freshMsgId db, aid)],
          admin_msg_condos := db.admin_msg_condos ++
            ((rawCondos.filterMap JsNum.toInt?).filter
              (fun c => (normalizeAllowedCondominiums raw).contains c)).map
              (fun c => (freshMsgId db, c)),
          admin_msg_targets := db.admin_msg_targets ++
            ((rawCondos.filterMap JsNum.toInt?).filter
              (fun c => (normalizeAllowedCondominiums raw).contains c)).map
              (fun c => (freshMsgId db, c)) } : DB).user_condos
        db.user_links _ _ with
    | error e => simp [hlink]
    | ok userLinks => simp [hlink]

/-- Witness for C5: limited sender with allow-list `{3}` targeting `{4, 3}`;
the effective target list is the intersection `{3}` and the action is not
rejected. -/
theorem c5_limited_sender_target_intersection_witness :
    ([JsNum.num 4, JsNum.num 3].filterMap JsNum.toInt? ≠ []) ∧
    (([JsNum.num 4, JsNum.num 3].filterMap JsNum.toInt?).filter
        (fun c => (normalizeAllowedCondominiums (.parsedList [.num 3])).contains c) ≠ []) ∧
    (postAdminMessages readDb (some 1) [.num 4, .num 3]
        (.scopeLimited (.parsedList [.num 3])) "t" 5).1.admin_msg_condos =
      readDb.admin_msg_condos ++
        (([JsNum.num 4, JsNum.num 3].filterMap JsNum.toInt?).filter
          (fun c => (normalizeAllowedCondominiums (.parsedList [.num 3])).contains c)).map
          (fun c => (freshMsgId readDb, c)) ∧
    (postAdminMessages readDb (some 1) [.num 4, .num 3]
        (.scopeLimited (.parsedList [.num 3])) "t" 5).2 ≠ .errForbidden :=
  ⟨by decide, by decide,
    ((c5_limited_sender_target_intersection readDb 1 [.num 4, .num 3]
      (.parsedList [.num 3]) "t" 5 (by decide)).2 (by decide)).1,
    ((c5_limited_sender_target_intersection readDb 1 [.num 4, .num 3]
      (.parsedList [.num 3]) "t" 5 (by decide)).2 (by decide)).2⟩

/-!
Read-path characterization helpers.
-/

theorem mem_listCap_iff (rs : List (Notification × AdminLink))
    (r : Notification × AdminLink) (hlen : rs.length ≤ 100) :
    r ∈ listCap rs ↔ r ∈ rs := by
  unfold listCap
  rw [List.take_of_length_le (by rw [length_sortByKeyDesc]; exact hlen)]
  exact mem_sortByKeyDesc _ _ _

theorem listCap_subset (rs : List (Notification × AdminLink))
    (r : Notification × AdminLink) (h : r ∈ listCap rs) : r ∈ rs :=
  (mem_sortByKeyDesc _ _ _).mp (List.take_subset _ _ h)

theorem listedRows_limited (db : DB) (aid : Nat) (raw : RawPerm)
    (hne : normalizeAllowedCondominiums raw ≠ []) :
    listedRows db (some aid) (.scopeLimited raw) =
      listCap ((adminJoin db (some aid)).filter
        (fun r => notifMatchesPerm db (normalizeAllowedCondominiums raw) r.1)) := by
  unfold listedRows getNotifications
  cases hcase : normalizeAllowedCondominiums raw with
  | nil => exact absurd hcase hne
  | cons a as =>
    simp [getAdminAllowedCondos, permPresent, hcase]

theorem unreadCount_limited (db : DB) (aid : Nat) (raw : RawPerm)
    (hne : normalizeAllowedCondominiums raw ≠ []) :
    unreadCount db (some aid) (.scopeLimited raw) =
      some ((adminJoin db (some aid)).filter
        (fun r => r.2.read_status == 0 &&
          notifMatchesPerm db (normalizeAllowedCondominiums raw) r.1)).length := by
  unfold unreadCount
  cases hcase : normalizeAllowedCondominiums raw with
  | nil => exact absurd hcase hne
  | cons a as =>
    simp [getAdminAllowedCondos, hcase]

/-- For an occurrence-type notification whose `related_id` resolves (uniquely)
to an `ocorrencias` row in condominium `c`, the read-path permission filter
holds exactly when `c` is in the allowed list. -/
theorem notifMatchesPerm_ocorrencia (db : DB) (allowed : List Int)
    (n : Notification) (oid : Nat) (c : Int)
    (htype : n.type = "ocorrencia")
    (hrel : n.related_id = some oid)
    (hoc : (oid, c) ∈ db.ocorrencias)
    (hocNodup : (db.ocorrencias.map (fun o => o.1)).Nodup) :
    (notifMatchesPerm db allowed n = true ↔ c ∈ allowed) := by
  unfold notifMatchesPerm
  rw [htype, hrel]
  have h1 : (("ocorrencia" : String) == "admin_message") = false := by decide
  have h2 : userScopedTypes.contains "ocorrencia" = false := by decide
  have h3 : ocorrenciaScopedTypes.contains "ocorrencia" = true := by decide
  have h4 : directScopedTypes.contains "ocorrencia" = false := by decide
  simp only [h1, h2, h3, h4, Bool.false_and, Bool.true_and, Bool.false_or,
    Bool.or_false, List.any_eq_true, Bool.and_eq_true]
  constructor
  · rintro ⟨o, ho, hid, hcontains⟩
    have hid' : o.1 = oid := by simpa using hid
    have hoeq : o = (oid, c) :=
      List.inj_on_of_nodup_map hocNodup ho hoc (by simpa using hid')
    rw [hoeq] at hcontains
    simpa using hcontains
  · intro hc
    exact ⟨(oid, c), hoc, by simp, by simpa using hc⟩

/-- C7: the admin list and unread-count queries re-derive the permission
scope from the request-time descriptor and apply it as a filter on top of the
existing link rows (which they never modify): for a notification already
linked to admin `aid` and scoped (via its `ocorrencias` row) to condominium
`c`, a descriptor whose allow-list contains `c` lists the row and one whose
(non-empty) allow-list omits `c` hides it — the same `db.admin_links` in both
cases — and the unread count is always the size of the unread join rows
filtered by the allowed set of the current descriptor. -/
theorem c7_read_path_refilters_current_permissions
    (db : DB) (aid : Nat) (raw1 raw2 : RawPerm) (n : Notification)
    (l : AdminLink) (oid : Nat) (c : Int)
    (hrow : (n, l) ∈ adminJoin db (some aid))
    (htype : n.type = "ocorrencia")
    (hrel : n.related_id = some oid)
    (hoc : (oid, c) ∈ db.ocorrencias)
    (hocNodup : (db.ocorrencias.map (fun o => o.1)).Nodup)
    (hc1 : c ∈ normalizeAllowedCondominiums raw1)
    (hc2 : c ∉ normalizeAllowedCondominiums raw2)
    (hne2 : normalizeAllowedCondominiums raw2 ≠ [])
    (hlen : (adminJoin db (some aid)).length ≤ 100) :
    (n, l) ∈ listedRows db (some aid) (.scopeLimited raw1)
    ∧ (n, l) ∉ listedRows db (some aid) (.scopeLimited raw2)
    ∧ (∀ raw : RawPerm, normalizeAllowedCondominiums raw ≠ [] →
        unreadCount db (some aid) (.scopeLimited raw) =
          some ((adminJoin db (some aid)).filter
            (fun r => r.2.read_status == 0 &&
              notifMatchesPerm db (normalizeAllowedCondominiums raw) r.1)).length) := by
  have hne1 : normalizeAllowedCondominiums raw1 ≠ [] := by
    intro h
    rw [h] at hc1
    cases hc1
  refine ⟨?_, ?_, fun raw hraw => unreadCount_limited db aid raw hraw⟩
  · rw [listedRows_limited db aid raw1 hne1,
      mem_listCap_iff _ _ (le_trans (List.length_filter_le _ _) hlen)]
    exact List.mem_filter.mpr ⟨hrow,
      (notifMatchesPerm_ocorrencia db _ n oid c htype hrel hoc hocNodup).mpr hc1⟩
  · rw [listedRows_limited db aid raw2 hne2]
    intro hmem
    have hfil := List.mem_filter.mp (listCap_subset _ _ hmem)
    exact hc2 ((notifMatchesPerm_ocorrencia db _ n oid c htype hrel hoc
      hocNodup).mp hfil.2)

/-- The occurrence notification of `readDb`, used by the C7 witness. -/
def c7Notif : Notification :=
  { id := 1, type := "ocorrencia", title := "t1", message := "m1",
    related_id := some 20, condominium_id := some 3, user_id := none,
    user_name := none, created_at := 10 }

/-- Witness for C7: the linked occurrence notification of admin 1 (condominium 3)
is listed under the descriptor with allow-list `{3}` and hidden under the one
with allow-list `{4}`, over the same link rows of `readDb`. -/
theorem c7_read_path_refilters_current_permissions_witness :
    ((c7Notif, (⟨1, 1, 0⟩ : AdminLink)) ∈ adminJoin readDb (some 1)
      ∧ c7Notif.type = "ocorrencia"
      ∧ c7Notif.related_id = some 20
      ∧ ((20 : Nat), (3 : Int)) ∈ readDb.ocorrencias
      ∧ (readDb.ocorrencias.map (fun o => o.1)).Nodup
      ∧ (3 : Int) ∈ normalizeAllowedCondominiums (.parsedList [.num 3])
      ∧ (3 : Int) ∉ normalizeAllowedCondominiums (.parsedList [.num 4])
      ∧ normalizeAllowedCondominiums (.parsedList [.num 4]) ≠ []
      ∧ (adminJoin readDb (some 1)).length ≤ 100)
    ∧ (c7Notif, (⟨1, 1, 0⟩ : AdminLink)) ∈
        listedRows readDb (some 1) (.scopeLimited (.parsedList [.num 3]))
    ∧ (c7Notif, (⟨1, 1, 0⟩ : AdminLink)) ∉
        listedRows readDb (some 1) (.scopeLimited (.parsedList [.num 4])) :=
  ⟨⟨by decide, rfl, rfl, by decide, by decide, by decide, by decide,
      by decide, by decide⟩,
    (c7_read_path_refilters_current_permissions readDb 1 (.parsedList [.num 3])
      (.parsedList [.num 4]) c7Notif ⟨1, 1, 0⟩ 20 3 (by decide) rfl rfl
      (by decide) (by decide) (by decide) (by decide) (by decide) (by decide)).1,
    (c7_read_path_refilters_current_permissions readDb 1 (.parsedList [.num 3])
      (.parsedList [.num 4]) c7Notif ⟨1, 1, 0⟩ 20 3 (by decide) rfl rfl
      (by decide) (by decide) (by decide) (by decide) (by decide) (by decide)).2.1⟩

theorem sseLoop_append (xs ys : List Bool) :
    sseLoop (xs ++ ys) = sseLoop xs ++ sseLoop ys := by
  induction xs with
  | nil => rfl
  | cons s rest ih =>
    simp only [List.cons_append, sseLoop, ih]
    rw [show rest.append ys = rest ++ ys from rfl, ih]

theorem sseLoop_length (xs : List Bool) : (sseLoop xs).length = xs.length := by
  induction xs with
  | nil => rfl
  | cons s rest ih =>
    simp only [sseLoop, List.length_cons, ih]

/-- C8: broadcasting to an admin with zero registered sessions is a silent
no-op; a failed write to one session (the `false` in the middle of the
session list) is recorded in place and does not change what happens to the
sessions before or after it; and every registered session is attempted (the
attempt list has the same length as the session list) with the function
returning a plain value, never an error, to its caller. -/
theorem c8_sse_broadcast_fire_and_forget
    (registry : List (Nat × List Bool)) (aid : Nat) :
    (sseSessions registry aid = [] → sendSseToAdmin registry aid = [])
    ∧ (∀ pre post : List Bool,
        sseSessions registry aid = pre ++ false :: post →
        sendSseToAdmin registry aid =
          sseLoop pre ++ Except.error "write failed" :: sseLoop post)
    ∧ (sendSseToAdmin registry aid).length = (sseSessions registry aid).length := by
  refine ⟨?_, ?_, sseLoop_length _⟩
  · intro h
    unfold sendSseToAdmin
    rw [h]
    rfl
  · intro pre post h
    unfold sendSseToAdmin
    rw [h, sseLoop_append]
    rfl

/-- Witness for C8: admin 1 has three sessions, the middle one failing; the
broadcast attempts all three and records the single failure in place; admin 2
has no sessions and the broadcast is a no-op. -/
theorem c8_sse_broadcast_fire_and_forget_witness :
    (sseSessions [(1, [true, false, true])] 1 = [true] ++ false :: [true]
      ∧ sseSessions [(1, [true, false, true])] 2 = [])
    ∧ sendSseToAdmin [(1, [true, false, true])] 1 =
        sseLoop [true] ++ Except.error "write failed" :: sseLoop [true]
    ∧ sendSseToAdmin [(1, [true, false, true])] 2 = [] :=
  ⟨⟨rfl, rfl⟩,
    (c8_sse_broadcast_fire_and_forget [(1, [true, false, true])] 1).2.1
      [true] [true] rfl,
    (c8_sse_broadcast_fire_and_forget [(1, [true, false, true])] 2).1 rfl⟩

/-- C9: `GET /api/notifications` with a permission descriptor but no admin
identity does not fail: under a full-access descriptor the result is the
admin-link join over every administrator, ordered most-recent-first and
capped at 100 — so (when the join fits the cap) a notification appears iff it
is linked to at least one administrator, rather than being scoped to any
calling admin. -/
theorem c9_no_admin_id_full_lists_all_linked
    (db : DB)
    (hids : (db.notifications.map (fun m => m.id)).Nodup)
    (hlen : (adminJoin db none).length ≤ 100) :
    getNotifications db none .scopeFull =
      .rows (sortByKeyDesc rowCreatedAt (adminJoin db none))
    ∧ (∀ n ∈ db.notifications,
        ((∃ l, (n, l) ∈ listedRows db none .scopeFull) ↔
          ∃ l ∈ db.admin_links, l.notification_id = n.id))
    ∧ (listedRows db none .scopeFull).Pairwise
        (fun a b => rowCreatedAt b ≤ rowCreatedAt a)
    ∧ (listedRows db none .scopeFull).length ≤ 100 := by
  have hrows : listedRows db none .scopeFull = listCap (adminJoin db none) := rfl
  have hjoin : ∀ (n : Notification) (l : AdminLink),
      ((n, l) ∈ adminJoin db none ↔
        l ∈ db.admin_links ∧ findNotif db l.notification_id = some n) := by
    intro n l
    unfold adminJoin
    rw [List.mem_filterMap]
    constructor
    · rintro ⟨a, ha, hfa⟩
      simp only [if_true] at hfa
      rcases Option.map_eq_some'.mp hfa with ⟨m, hm, hpair⟩
      have hml : m = n ∧ a = l := by
        constructor <;> [exact congrArg Prod.fst hpair; exact congrArg Prod.snd hpair]
      rw [hml.1] at hm
      rw [hml.2] at ha hm
      exact ⟨ha, hm⟩
    · rintro ⟨hl, hfind⟩
      exact ⟨l, hl, by simp [hfind]⟩
  refine ⟨?_, ?_, ?_, ?_⟩
  · show ListOutcome.rows (listCap (adminJoin db none)) = _
    unfold listCap
    rw [List.take_of_length_le (by rw [length_sortByKeyDesc]; exact hlen)]
  · intro n hn
    rw [hrows]
    constructor
    · rintro ⟨l, hmem⟩
      have hj := (hjoin n l).mp (listCap_subset _ _ hmem)
      refine ⟨l, hj.1, ?_⟩
      have hfound := hj.2
      unfold findNotif at hfound
      have hp := List.find?_some hfound
      have hpe : n.id = l.notification_id := by simpa using hp
      exact hpe.symm
    · rintro ⟨l, hl, hid⟩
      refine ⟨l, (mem_listCap_iff _ _ hlen).mpr ?_⟩
      refine (hjoin n l).mpr ⟨hl, ?_⟩
      rw [hid]
      exact findNotif_eq_some_self db n hids hn
  · rw [hrows]
    exact List.Pairwise.sublist (List.take_sublist _ _)
      (pairwise_sortByKeyDesc rowCreatedAt _)
  · rw [hrows]
    exact List.length_take_le _ _

/-- Witness for C9 at `readDb` (notification ids `[1, 2]` are distinct and
the join has 3 rows): notification 1, linked to admins 1 and 2, appears in
the no-admin-id full listing. -/
theorem c9_no_admin_id_full_lists_all_linked_witness :
    ((readDb.notifications.map (fun m => m.id)).Nodup
      ∧ (adminJoin readDb none).length ≤ 100)
    ∧ (∀ n ∈ readDb.notifications,
        ((∃ l, (n, l) ∈ listedRows readDb none .scopeFull) ↔
          ∃ l ∈ readDb.admin_links, l.notification_id = n.id))
    ∧ (listedRows readDb none .scopeFull).length ≤ 100 :=
  ⟨⟨by decide, by decide⟩,
    (c9_no_admin_id_full_lists_all_linked readDb (by decide) (by decide)).2.1,
    (c9_no_admin_id_full_lists_all_linked readDb (by decide) (by decide)).2.2.2⟩

/-- C10: `PUT /api/notifications/:id/read` answers not-found exactly when no
`(admin_id, notification_id)` link row exists, leaving the database unchanged
in that case; when a link exists it sets the `read_status` of that link row to 1
while leaving the notification rows, the user link rows, and every other
link row (any row not matching the pair) unchanged. -/
theorem c10_mark_read_only_own_link
    (db : DB) (aid nid : Nat) :
    ((markNotificationRead db (some aid) nid).2 = .notFound ↔
      ¬∃ l ∈ db.admin_links, linkMatches aid nid l = true)
    ∧ ((markNotificationRead db (some aid) nid).2 = .notFound →
        (markNotificationRead db (some aid) nid).1 = db)
    ∧ (markNotificationRead db (some aid) nid).1.notifications = db.notifications
    ∧ (markNotificationRead db (some aid) nid).1.user_links = db.user_links
    ∧ (∀ l ∈ (markNotificationRead db (some aid) nid).1.admin_links,
        linkMatches aid nid l = true → l.read_status = 1)
    ∧ (∀ l : AdminLink, linkMatches aid nid l = false →
        (l ∈ (markNotificationRead db (some aid) nid).1.admin_links ↔
          l ∈ db.admin_links)) := by
  by_cases h0 : (db.admin_links.filter (linkMatches aid nid)).length = 0
  · have hnil : db.admin_links.filter (linkMatches aid nid) = [] :=
      List.length_eq_zero.mp h0
    have hnone : ¬∃ l ∈ db.admin_links, linkMatches aid nid l = true := by
      rintro ⟨l, hl, hp⟩
      have hmem : l ∈ db.admin_links.filter (linkMatches aid nid) :=
        List.mem_filter.mpr ⟨hl, hp⟩
      rw [hnil] at hmem
      cases hmem
    have hb : ((db.admin_links.filter (linkMatches aid nid)).length == 0) = true := by
      simp [h0]
    have hres : markNotificationRead db (some aid) nid = (db, .notFound) := by
      simp only [markNotificationRead, hb, if_true]
    rw [hres]
    refine ⟨iff_of_true rfl hnone, fun _ => rfl, rfl, rfl, ?_, fun l _ => Iff.rfl⟩
    intro l hl hp
    exact absurd ⟨l, hl, hp⟩ hnone
  · have hsome : ∃ l ∈ db.admin_links, linkMatches aid nid l = true := by
      have hpos : 0 < (db.admin_links.filter (linkMatches aid nid)).length :=
        Nat.pos_of_ne_zero h0
      rcases List.exists_mem_of_ne_nil _
          (List.ne_nil_of_length_pos hpos) with ⟨l, hl⟩
      rcases List.mem_filter.mp hl with ⟨hmem, hp⟩
      exact ⟨l, hmem, hp⟩
    have hres : markNotificationRead db (some aid) nid =
        ({ db with admin_links := db.admin_links.map (fun l =>
            if linkMatches aid nid l then { l with read_status := 1 } else l) },
         .ok) := by
      have hb : ((db.admin_links.filter (linkMatches aid nid)).length == 0) = false := by
        simpa using h0
      simp only [markNotificationRead, hb, Bool.false_eq_true, if_false]
    rw [hres]
    refine ⟨iff_of_false (fun h => nomatch h) (not_not_intro hsome),
      fun h => absurd h (fun h2 => nomatch h2), rfl, rfl, ?_, ?_⟩
    · intro l hl hp
      rcases List.mem_map.mp hl with ⟨orig, _, heq⟩
      by_cases hm : linkMatches aid nid orig = true
      · rw [if_pos hm] at heq
        rw [← heq]
      · rw [if_neg (by simpa using hm)] at heq
        rw [← heq] at hp
        exact absurd hp hm
    · intro l hlf
      constructor
      · intro hl
        rcases List.mem_map.mp hl with ⟨orig, ho, heq⟩
        by_cases hm : linkMatches aid nid orig = true
        · rw [if_pos hm] at heq
          have hml : linkMatches aid nid l = true := by
            rw [← heq]
            exact hm
          rw [hlf] at hml
          cases hml
        · rw [if_neg (by simpa using hm)] at heq
          rw [← heq]
          exact ho
      · intro hl
        refine List.mem_map.mpr ⟨l, hl, ?_⟩
        rw [if_neg (by simp [hlf])]

/-- Witness for C10 at `readDb`: marking notification 1 read for admin 1
succeeds (the link exists), while notification 9 has no link for admin 1 and
is reported not-found with the database unchanged. -/
theorem c10_mark_read_only_own_link_witness :
    ((markNotificationRead readDb (some 1) 9).2 = .notFound ↔
      ¬∃ l ∈ readDb.admin_links, linkMatches 1 9 l = true)
    ∧ (∀ l ∈ (markNotificationRead readDb (some 1) 1).1.admin_links,
        linkMatches 1 1 l = true → l.read_status = 1)
    ∧ (markNotificationRead readDb (some 1) 1).1.notifications =
        readDb.notifications :=
  ⟨(c10_mark_read_only_own_link readDb 1 9).1,
    (c10_mark_read_only_own_link readDb 1 1).2.2.2.2.1,
    (c10_mark_read_only_own_link readDb 1 1).2.2.1⟩

end DomusGest
